import Mathlib

/-!
Verification of the Streamlit Edge-TTS text-to-speech application
(`src/app.py`) against its natural-language specification.

The program is embedded shallowly:
* `escape_xml` mirrors the five chained `str.replace` calls (all patterns
  are single characters, so each `replace` is a per-character flat-map);
* the synthesis helpers (`synthesize_to_file_async`, `synthesize_to_file`)
  are modelled over an explicit association-list file system and an
  abstract `backend` function standing for `edge_tts.Communicate(...).save`;
  every helper also returns the list of backend calls it issued, so that
  "exactly one call / zero calls" claims become statements about that log;
* the Streamlit convert-button handler is modelled as `convertHandler`;
* the voice catalog constants are transcribed verbatim, with Python's
  `sorted(set(...))` rendered as an insertion sort over a deduplicated list
  using code-point lexicographic string comparison.
-/

namespace TTSApp

/-! ## Text escaping (`escape_xml`, src/app.py lines 88-95) -/

/-- Python `str.replace(old, new)` restricted to a one-character pattern,
which is how all five calls in `escape_xml` use it: every occurrence of the
character `c` is replaced by the string `r`. -/
def replaceChar (c : Char) (r : List Char) (xs : List Char) : List Char :=
  xs.flatMap (fun a => if a = c then r else [a])

/-- `escape_xml` from src/app.py: the five replacements applied in source
order (`&` first, then `<`, `>`, `"`, `'`). -/
def escape_xml (xs : List Char) : List Char :=
  replaceChar '\'' "&apos;".toList
    (replaceChar '"' "&quot;".toList
      (replaceChar '>' "&gt;".toList
        (replaceChar '<' "&lt;".toList
          (replaceChar '&' "&amp;".toList xs))))

/-- The net effect of the five ordered replacements on a single character. -/
def escChar (a : Char) : List Char :=
  if a = '&' then "&amp;".toList
  else if a = '<' then "&lt;".toList
  else if a = '>' then "&gt;".toList
  else if a = '"' then "&quot;".toList
  else if a = '\'' then "&apos;".toList
  else [a]

/-- The five XML-special characters replaced by `escape_xml`. -/
def isSpecial (a : Char) : Bool :=
  a = '&' || a = '<' || a = '>' || a = '"' || a = '\''

theorem replaceChar_nil (c : Char) (r : List Char) : replaceChar c r [] = [] := rfl

theorem replaceChar_cons (c : Char) (r : List Char) (a : Char) (xs : List Char) :
    replaceChar c r (a :: xs) = (if a = c then r else [a]) ++ replaceChar c r xs := by
  simp [replaceChar]

theorem replaceChar_append (c : Char) (r : List Char) (l₁ l₂ : List Char) :
    replaceChar c r (l₁ ++ l₂) = replaceChar c r l₁ ++ replaceChar c r l₂ := by
  simp [replaceChar]

theorem escape_xml_nil : escape_xml [] = [] := rfl

theorem escape_xml_cons (a : Char) (xs : List Char) :
    escape_xml (a :: xs) = escChar a ++ escape_xml xs := by
  by_cases h1 : a = '&'
  · subst h1
    simp [escape_xml, escChar, replaceChar_cons, replaceChar_append]
  by_cases h2 : a = '<'
  · subst h2
    simp [escape_xml, escChar, replaceChar_cons, replaceChar_append, h1]
  by_cases h3 : a = '>'
  · subst h3
    simp [escape_xml, escChar, replaceChar_cons, replaceChar_append, h1, h2]
  by_cases h4 : a = '"'
  · subst h4
    simp [escape_xml, escChar, replaceChar_cons, replaceChar_append, h1, h2, h3]
  by_cases h5 : a = '\''
  · subst h5
    simp [escape_xml, escChar, replaceChar_cons, replaceChar_append, h1, h2, h3, h4]
  · simp [escape_xml, escChar, replaceChar_cons, replaceChar_append, h1, h2, h3, h4, h5]

/-- The composition of the five ordered replacements acts per character. -/
theorem escape_xml_eq_bind (xs : List Char) : escape_xml xs = xs.flatMap escChar := by
  induction xs with
  | nil => rfl
  | cons a xs ih => rw [escape_xml_cons, List.flatMap_cons, ih]

/-- A character string is well-escaped when none of `<`, `>`, `"`, `'`
occurs in it and every occurrence of `&` starts one of the five entities
`&amp;` `&lt;` `&gt;` `&quot;` `&apos;` — i.e. it holds no unescaped
occurrence of any of the five XML-special characters. -/
def wellEscaped : List Char → Bool
  | [] => true
  | a :: l =>
    if a = '<' || a = '>' || a = '"' || a = '\'' then false
    else if a = '&' then
      match l with
      | 'a' :: 'm' :: 'p' :: ';' :: r => wellEscaped r
      | 'l' :: 't' :: ';' :: r => wellEscaped r
      | 'g' :: 't' :: ';' :: r => wellEscaped r
      | 'q' :: 'u' :: 'o' :: 't' :: ';' :: r => wellEscaped r
      | 'a' :: 'p' :: 'o' :: 's' :: ';' :: r => wellEscaped r
      | _ => false
    else wellEscaped l

theorem wellEscaped_escChar_append (a : Char) (l : List Char) :
    wellEscaped (escChar a ++ l) = wellEscaped l := by
  by_cases h1 : a = '&'
  · subst h1; simp [escChar, wellEscaped]
  by_cases h2 : a = '<'
  · subst h2; simp [escChar, wellEscaped, h1]
  by_cases h3 : a = '>'
  · subst h3; simp [escChar, wellEscaped, h1, h2]
  by_cases h4 : a = '"'
  · subst h4; simp [escChar, wellEscaped, h1, h2, h3]
  by_cases h5 : a = '\''
  · subst h5; simp [escChar, wellEscaped, h1, h2, h3, h4]
  · rw [escChar, wellEscaped.eq_def]
    simp [h1, h2, h3, h4, h5]

theorem wellEscaped_bind_append (xs l : List Char) :
    wellEscaped (xs.flatMap escChar ++ l) = wellEscaped l := by
  induction xs with
  | nil => simp
  | cons a xs ih =>
      rw [List.flatMap_cons, List.append_assoc, wellEscaped_escChar_append, ih]

theorem escChar_no_forbidden (a : Char) :
    '<' ∉ escChar a ∧ '>' ∉ escChar a ∧ '"' ∉ escChar a ∧ '\'' ∉ escChar a := by
  unfold escChar
  split_ifs with h1 h2 h3 h4 h5
  · refine ⟨?_, ?_, ?_, ?_⟩ <;> decide
  · refine ⟨?_, ?_, ?_, ?_⟩ <;> decide
  · refine ⟨?_, ?_, ?_, ?_⟩ <;> decide
  · refine ⟨?_, ?_, ?_, ?_⟩ <;> decide
  · refine ⟨?_, ?_, ?_, ?_⟩ <;> decide
  · simp [List.mem_singleton]
    exact ⟨fun h => h2 h.symm, fun h => h3 h.symm, fun h => h4 h.symm,
      fun h => h5 h.symm⟩

/-- **C1.** `escape_xml` is the in-order composition of the five
replacements (equivalently, it acts per character via `escChar`), and its
output holds no unescaped occurrence of any of `&`, `<`, `>`, `"`, `'`:
the four bracket/quote characters are absent outright, and every `&` in
the output starts one of the five entities. -/
theorem escape_xml_output_wellEscaped (xs : List Char) :
    escape_xml xs = xs.flatMap escChar ∧
    wellEscaped (escape_xml xs) = true ∧
    '<' ∉ escape_xml xs ∧ '>' ∉ escape_xml xs ∧
    '"' ∉ escape_xml xs ∧ '\'' ∉ escape_xml xs := by
  refine ⟨escape_xml_eq_bind xs, ?_, ?_, ?_, ?_, ?_⟩
  · have h := wellEscaped_bind_append xs []
    rw [List.append_nil] at h
    rw [escape_xml_eq_bind, h]
    rfl
  all_goals
    rw [escape_xml_eq_bind]
    intro hmem
    rw [List.mem_flatMap] at hmem
    obtain ⟨a, -, ha⟩ := hmem
    have h := escChar_no_forbidden a
    first
    | exact h.1 ha
    | exact h.2.1 ha
    | exact h.2.2.1 ha
    | exact h.2.2.2 ha

/-- **C8.** On text containing none of the five special characters,
`escape_xml` is the identity. -/
theorem escape_xml_id_on_plain (xs : List Char)
    (h : ∀ c ∈ xs, isSpecial c = false) : escape_xml xs = xs := by
  induction xs with
  | nil => rfl
  | cons a xs ih =>
      have ha := h a (List.mem_cons_self a xs)
      have hrest : ∀ c ∈ xs, isSpecial c = false := fun c hc => h c (List.mem_cons_of_mem a hc)
      rw [escape_xml_cons, ih hrest]
      simp only [isSpecial, Bool.or_eq_false_iff, decide_eq_false_iff_not] at ha
      obtain ⟨⟨⟨⟨h1, h2⟩, h3⟩, h4⟩, h5⟩ := ha
      simp [escChar, h1, h2, h3, h4, h5]

/-- Witness for C8 at the concrete plain input `"hello"`. -/
theorem escape_xml_id_on_plain_witness :
    escape_xml "hello".toList = "hello".toList :=
  escape_xml_id_on_plain "hello".toList (by decide)

theorem one_le_length_escChar (a : Char) : 1 ≤ (escChar a).length := by
  unfold escChar
  split_ifs <;> simp

theorem length_le_length_escape (l : List Char) :
    l.length ≤ (escape_xml l).length := by
  induction l with
  | nil => simp [escape_xml_nil]
  | cons a l ih =>
      rw [escape_xml_cons, List.length_append, List.length_cons]
      have := one_le_length_escChar a
      omega

theorem length_lt_length_escape_of_amp (l : List Char) (h : '&' ∈ l) :
    l.length < (escape_xml l).length := by
  induction l with
  | nil => cases h
  | cons a l ih =>
      rw [escape_xml_cons, List.length_append, List.length_cons]
      rcases List.mem_cons.mp h with h | h
      · subst h
        have h2 := length_le_length_escape l
        have : (escChar '&').length = 5 := by decide
        omega
      · have h2 := ih h
        have h3 := one_le_length_escChar a
        omega

theorem amp_mem_escape_of_special (l : List Char) (c : Char)
    (hc : c ∈ l) (hs : isSpecial c = true) : '&' ∈ escape_xml l := by
  rw [escape_xml_eq_bind, List.mem_flatMap]
  refine ⟨c, hc, ?_⟩
  simp only [isSpecial, Bool.or_eq_true, decide_eq_true_eq] at hs
  rcases hs with ((((h | h) | h) | h) | h) <;> subst h <;> decide

/-- **C9.** `escape_xml` is not idempotent: on any text containing one of
the five special characters, a second application yields a strictly longer
— hence different — string, so callers must escape exactly once. -/
theorem escape_xml_not_idempotent (xs : List Char) (c : Char)
    (hc : c ∈ xs) (hs : isSpecial c = true) :
    escape_xml (escape_xml xs) ≠ escape_xml xs := by
  have hamp : '&' ∈ escape_xml xs := amp_mem_escape_of_special xs c hc hs
  have hlt := length_lt_length_escape_of_amp (escape_xml xs) hamp
  intro heq
  rw [heq] at hlt
  omega

/-- Witness for C9 at the concrete input `"&"`: escaping twice differs
from escaping once. -/
theorem escape_xml_not_idempotent_witness :
    escape_xml (escape_xml "&".toList) ≠ escape_xml "&".toList :=
  escape_xml_not_idempotent "&".toList '&' (by decide) (by decide)

/-! ## Voice catalog (src/app.py lines 103-119) -/

/-- Code-point comparison of strings, the order Python's `sorted` uses on
`str` values: strict lexicographic comparison of the character sequences. -/
def strLt : List Char → List Char → Bool
  | [], [] => false
  | [], _ :: _ => true
  | _ :: _, [] => false
  | a :: as, b :: bs => if a = b then strLt as bs else a.toNat < b.toNat

/-- Non-strict code-point order on strings. -/
def strLe (a b : String) : Bool := !(strLt b.toList a.toList)

/-- Ordered insertion into an already sorted list (ascending `strLe`). -/
def insortStr (x : String) : List String → List String
  | [] => [x]
  | y :: ys => if strLe x y then x :: y :: ys else y :: insortStr x ys

/-- Python's `sorted` on a list of strings, modelled as insertion sort with
the code-point order. -/
def sortStrs : List String → List String
  | [] => []
  | x :: xs => insortStr x (sortStrs xs)

/-- `MALE_VOICES` from src/app.py (the list includes `en-US-AriaNeural`,
which the source comments is a female voice kept "for variety"). -/
def MALE_VOICES : List String :=
  ["en-US-GuyNeural",
   "en-US-AriaNeural",
   "en-GB-RyanNeural",
   "en-AU-WilliamNeural",
   "en-CA-LiamNeural"]

/-- `FEMALE_VOICES` from src/app.py. -/
def FEMALE_VOICES : List String :=
  ["en-US-JennyNeural",
   "en-US-AmberNeural",
   "en-GB-LibbyNeural",
   "en-AU-SallyNeural",
   "en-CA-ClaraNeural"]

/-- `ALL_VOICES = sorted(set(MALE_VOICES + FEMALE_VOICES))`: duplicates
removed, then sorted in ascending code-point order. -/
def ALL_VOICES : List String := sortStrs ((MALE_VOICES ++ FEMALE_VOICES).dedup)

/-- `true` when each adjacent pair of the list is in ascending code-point
order. -/
def isSortedLe : List String → Bool
  | [] => true
  | [_] => true
  | a :: b :: r => strLe a b && isSortedLe (b :: r)

/-- **C4.** The "all voices" catalog is the sorted, duplicate-free union of
the male and female voice lists: it is sorted ascending in code-point
order, has no duplicates, and holds exactly the voices of the two gendered
lists. -/
theorem ALL_VOICES_sorted_dedup_union :
    isSortedLe ALL_VOICES = true ∧
    ALL_VOICES.Nodup ∧
    ((MALE_VOICES ++ FEMALE_VOICES).all (fun v => ALL_VOICES.contains v) ∧
     ALL_VOICES.all (fun v => (MALE_VOICES ++ FEMALE_VOICES).contains v)) := by
  refine ⟨by decide, by decide, by decide, by decide⟩

/-! ## Prosody strings (src/app.py lines 150-155) -/

/-- `rate_str = f"{rate_pct}%"` from src/app.py: Python renders the int in
plain decimal (a `-` sign for negatives, none otherwise). -/
def rate_str (ratePct : Int) : String := toString ratePct ++ "%"

/-- `volume_str = f"{volume_db}dB"` from src/app.py. -/
def volume_str (volumeDb : Int) : String := toString volumeDb ++ "dB"

/-- Reference decimal rendering of an integer, written out from first
principles: the base-10 digits of the absolute value, preceded by `-`
exactly when the value is negative — never a leading `+`. -/
def decimalOfInt (n : Int) : String :=
  ⟨if n < 0 then '-' :: Nat.toDigits 10 n.natAbs else Nat.toDigits 10 n.natAbs⟩

/-- **C5.** For every slider-range rate in [-50, 50] and volume in
[-10, 10], the generated SSML strings are exactly the decimal rendering of
the value followed by `%` / `dB`, and contain no `+` sign. -/
theorem rate_volume_str_decimal (r v : Int)
    (hr : r ∈ Finset.Icc (-50 : Int) 50) (hv : v ∈ Finset.Icc (-10 : Int) 10) :
    rate_str r = decimalOfInt r ++ "%" ∧
    volume_str v = decimalOfInt v ++ "dB" ∧
    '+' ∉ (rate_str r).toList ∧ '+' ∉ (volume_str v).toList := by
  have h1 : ∀ x ∈ Finset.Icc (-50 : Int) 50,
      rate_str x = decimalOfInt x ++ "%" ∧ '+' ∉ (rate_str x).toList := by decide
  have h2 : ∀ x ∈ Finset.Icc (-10 : Int) 10,
      volume_str x = decimalOfInt x ++ "dB" ∧ '+' ∉ (volume_str x).toList := by decide
  exact ⟨(h1 r hr).1, (h2 v hv).1, (h1 r hr).2, (h2 v hv).2⟩

/-- Witness for C5 at rate -5 and volume 10: the strings are `"-5%"` and
`"10dB"`. -/
theorem rate_volume_str_decimal_witness :
    rate_str (-5) = "-5%" ∧ volume_str 10 = "10dB" := by
  have h := rate_volume_str_decimal (-5) 10 (by decide) (by decide)
  refine ⟨h.1.trans (by decide), h.2.1.trans (by decide)⟩

/-! ## Synthesis helpers over an explicit file system
(src/app.py lines 49-84) -/

/-- File system as an association list from paths to byte contents (bytes
modelled as `List Nat`). -/
abbrev FS := List (String × List Nat)

/-- Write (create or overwrite) a file. -/
def fsWrite (fs : FS) (p : String) (d : List Nat) : FS :=
  (p, d) :: fs.filter (fun e => e.1 != p)

/-- Read a file's bytes, `none` when absent. -/
def fsRead (fs : FS) (p : String) : Option (List Nat) :=
  (fs.find? (fun e => e.1 == p)).map Prod.snd

/-- Delete a file (no-op when absent). -/
def fsErase (fs : FS) (p : String) : FS :=
  fs.filter (fun e => e.1 != p)

/-- One call issued to the edge-tts backend: the payload string handed to
`edge_tts.Communicate` and the voice. -/
structure SynthCall where
  payload : String
  voice : String
deriving DecidableEq

/-- The edge-tts backend abstracted: from a payload and a voice either MP3
bytes or an error. Stands for `edge_tts.Communicate(...).save(...)`. -/
abbrev Backend := String → String → Except String (List Nat)

/-- `escape_xml` lifted to `String`. -/
def escape_xml_str (s : String) : String := ⟨escape_xml s.toList⟩

/-- The SSML wrapper built at src/app.py line 57:
`<speak><prosody rate="{rate}" volume="{volume}">{escape_xml(text)}</prosody></speak>`. -/
def buildSSML (text rate volume : String) : String :=
  "<speak><prosody rate=\"" ++ rate ++ "\" volume=\"" ++ volume ++ "\">"
    ++ escape_xml_str text ++ "</prosody></speak>"

/-- `synthesize_to_file_async` from src/app.py lines 49-62: build the SSML
payload, hand it with the voice to the backend, and on success write the
MP3 bytes to `output_path`. The second component logs the backend calls
issued: there is exactly one, always with the markup payload — the source
has no fallback and no exception handling here, so a backend error
propagates as-is. -/
def synthesize_to_file_async (backend : Backend) (fs : FS)
    (text voice rate volume output_path : String) :
    Except String FS × List SynthCall :=
  let ssml := buildSSML text rate volume
  match backend ssml voice with
  | .error e => (.error e, [⟨ssml, voice⟩])
  | .ok bytes => (.ok (fsWrite fs output_path bytes), [⟨ssml, voice⟩])

/-- `synthesize_to_file` from src/app.py lines 65-84: when no output path
is supplied, a fresh temp file (name `tmpName`) is created empty and used;
the async helper then writes it; its bytes are read back; `os.remove` is
attempted with any failure swallowed (`removeOk = false` models a failing
delete). Returns the bytes (with the resulting file system) and the
backend-call log. -/
def synthesize_to_file (backend : Backend) (removeOk : Bool) (tmpName : String)
    (fs : FS) (text voice rate volume : String) (output_path : Option String) :
    Except String (List Nat × FS) × List SynthCall :=
  let path := output_path.getD tmpName
  let fs0 := if output_path.isNone then fsWrite fs path [] else fs
  match synthesize_to_file_async backend fs0 text voice rate volume path with
  | (.error e, log) => (.error e, log)
  | (.ok fs1, log) =>
    match fsRead fs1 path with
    | none => (.error "read failed", log)
    | some data =>
      (.ok (data, if removeOk then fsErase fs1 path else fs1), log)

theorem fsRead_fsWrite_self (fs : FS) (p : String) (d : List Nat) :
    fsRead (fsWrite fs p d) p = some d := by
  simp [fsRead, fsWrite, List.find?]

theorem fsRead_fsErase_self (fs : FS) (p : String) :
    fsRead (fsErase fs p) p = none := by
  have h : (fsErase fs p).find? (fun e => e.1 == p) = none := by
    rw [List.find?_eq_none]
    intro x hx
    have hx2 := (List.mem_filter.mp hx).2
    simp only [bne_iff_ne, ne_eq] at hx2
    simp [hx2]
  simp [fsRead, h]

/-- A backend that rejects the markup payload but would accept the plain
text `"hello"`: it distinguishes a markup payload from the raw text. -/
def markupRejectingBackend : Backend := fun payload _ =>
  if payload = "hello" then .ok [1, 2, 3] else .error "markup rejected"

/-- **C2 counterexample.** With a backend that fails the markup-based call
but would succeed on the plain text `"hello"`, `synthesize_to_file_async`
propagates the error after a single call: the log holds exactly one call,
that call carries the markup payload (not the plain text), and no
plain-text fallback call is ever issued even though it would have
succeeded — contradicting the claimed retry-with-plain-text policy. -/
theorem no_fallback_counterexample :
    (synthesize_to_file_async markupRejectingBackend [] "hello"
        "en-US-GuyNeural" "0%" "0dB" "out.mp3").1 = .error "markup rejected" ∧
    (synthesize_to_file_async markupRejectingBackend [] "hello"
        "en-US-GuyNeural" "0%" "0dB" "out.mp3").2.length = 1 ∧
    ((synthesize_to_file_async markupRejectingBackend [] "hello"
        "en-US-GuyNeural" "0%" "0dB" "out.mp3").2.all
      (fun c => c.payload != "hello")) = true ∧
    markupRejectingBackend "hello" "en-US-GuyNeural" = .ok [1, 2, 3] := by
  refine ⟨by rfl, by decide, by decide, by rfl⟩

/-- **C2 (amended).** The engine issues exactly one backend call, always
carrying the SSML markup payload and the requested voice; if that call
fails, the error propagates directly to the caller — no fallback call with
the plain text is made. -/
theorem single_markup_call_no_fallback (backend : Backend) (fs : FS)
    (text voice rate volume output_path : String) :
    (synthesize_to_file_async backend fs text voice rate volume output_path).2
      = [⟨buildSSML text rate volume, voice⟩] ∧
    ∀ e, backend (buildSSML text rate volume) voice = .error e →
      (synthesize_to_file_async backend fs text voice rate volume output_path).1
        = .error e := by
  constructor
  · rcases h : backend (buildSSML text rate volume) voice with e | b <;>
      simp [synthesize_to_file_async, h]
  · intro e he
    simp [synthesize_to_file_async, he]

/-- Witness for the amended C2: with a backend that always reports
`"boom"`, the single call is the markup one and the error propagates. -/
theorem single_markup_call_no_fallback_witness :
    (synthesize_to_file_async (fun _ _ => .error "boom") [] "hi" "v" "0%" "0dB"
        "o.mp3").2 = [⟨buildSSML "hi" "0%" "0dB", "v"⟩] ∧
    (synthesize_to_file_async (fun _ _ => .error "boom") [] "hi" "v" "0%" "0dB"
        "o.mp3").1 = .error "boom" := by
  have h := single_markup_call_no_fallback (fun _ _ => .error "boom") [] "hi" "v"
    "0%" "0dB" "o.mp3"
  exact ⟨h.1, h.2 "boom" rfl⟩

/-- A backend that always succeeds with the fixed payload `[7]`. -/
def constOkBackend : Backend := fun _ _ => .ok [7]

theorem synthesize_to_file_ok (backend : Backend) (removeOk : Bool)
    (tmpName : String) (fs : FS) (text voice rate volume : String)
    (output_path : Option String) (bytes : List Nat)
    (h : backend (buildSSML text rate volume) voice = .ok bytes) :
    synthesize_to_file backend removeOk tmpName fs text voice rate volume
        output_path =
      (.ok (bytes,
        if removeOk then
          fsErase
            (fsWrite (if output_path.isNone then
                fsWrite fs (output_path.getD tmpName) [] else fs)
              (output_path.getD tmpName) bytes)
            (output_path.getD tmpName)
        else
          fsWrite (if output_path.isNone then
              fsWrite fs (output_path.getD tmpName) [] else fs)
            (output_path.getD tmpName) bytes),
       [⟨buildSSML text rate volume, voice⟩]) := by
  simp [synthesize_to_file, synthesize_to_file_async, h, fsRead_fsWrite_self]

/-- **C6.** Whenever the backend call succeeds (so the output file is
written and its bytes read back), `synthesize_to_file` returns those bytes
regardless of whether the deletion succeeds — a failed `os.remove`
(`removeOk = false`) is swallowed, never escalated — and when the deletion
does succeed the output file is gone from the resulting file system. -/
theorem temp_file_deleted_after_read (backend : Backend) (removeOk : Bool)
    (tmpName : String) (fs : FS) (text voice rate volume : String)
    (output_path : Option String) (bytes : List Nat)
    (h : backend (buildSSML text rate volume) voice = .ok bytes) :
    ∃ fs2,
      (synthesize_to_file backend removeOk tmpName fs text voice rate volume
        output_path).1 = .ok (bytes, fs2) ∧
      (removeOk = true →
        fsRead fs2 (output_path.getD tmpName) = none) := by
  refine ⟨if removeOk then
      fsErase
        (fsWrite (if output_path.isNone then
            fsWrite fs (output_path.getD tmpName) [] else fs)
          (output_path.getD tmpName) bytes)
        (output_path.getD tmpName)
    else
      fsWrite (if output_path.isNone then
          fsWrite fs (output_path.getD tmpName) [] else fs)
        (output_path.getD tmpName) bytes, ?_, ?_⟩
  · rw [synthesize_to_file_ok backend removeOk tmpName fs text voice rate volume
      output_path bytes h]
  · intro hr
    subst hr
    simp [fsRead_fsErase_self]

/-- Witness for C6: a concrete always-succeeding backend with a failing
delete still yields the bytes. -/
theorem temp_file_deleted_after_read_witness :
    ∃ fs2,
      (synthesize_to_file constOkBackend false "tmp.mp3" [] "hi" "v" "0%" "0dB"
        none).1 = .ok ([7], fs2) ∧
      (false = true → fsRead fs2 ((none : Option String).getD "tmp.mp3") = none) :=
  temp_file_deleted_after_read constOkBackend false "tmp.mp3" [] "hi" "v" "0%"
    "0dB" none [7] rfl

/-- **C10.** When the caller supplies an explicit output path and the
backend call succeeds, the file at that caller-supplied path is deleted
after its bytes are read (here the deletion itself succeeds): no file
persists at the given path in the returned file system. -/
theorem explicit_output_path_deleted (backend : Backend) (tmpName : String)
    (fs : FS) (text voice rate volume p : String) (bytes : List Nat)
    (h : backend (buildSSML text rate volume) voice = .ok bytes) :
    (synthesize_to_file backend true tmpName fs text voice rate volume
        (some p)).1 = .ok (bytes, fsErase (fsWrite fs p bytes) p) ∧
    fsRead (fsErase (fsWrite fs p bytes) p) p = none := by
  constructor
  · rw [synthesize_to_file_ok backend true tmpName fs text voice rate volume
      (some p) bytes h]
    simp
  · exact fsRead_fsErase_self _ p

/-- Witness for C10 at a concrete caller-supplied path `"mine.mp3"`. -/
theorem explicit_output_path_deleted_witness :
    (synthesize_to_file constOkBackend true "tmp.mp3" [] "hi" "v" "0%" "0dB"
        (some "mine.mp3")).1 = .ok ([7], fsErase (fsWrite [] "mine.mp3" [7]) "mine.mp3") ∧
    fsRead (fsErase (fsWrite [] "mine.mp3" [7]) "mine.mp3") "mine.mp3" = none :=
  explicit_output_path_deleted constOkBackend "tmp.mp3" [] "hi" "v" "0%" "0dB"
    "mine.mp3" [7] rfl

/-! ## The convert-button handler (src/app.py lines 162-184) -/

/-- Whitespace as stripped by Python's `str.strip()` (ASCII range). -/
def pySpace (c : Char) : Bool :=
  c = ' ' || c = '\t' || c = '\n' || c = '\r' || c = '\x0b' || c = '\x0c'

/-- Python `text.strip()`: leading and trailing whitespace removed. -/
def pyStrip (s : List Char) : List Char :=
  ((s.dropWhile pySpace).reverse.dropWhile pySpace).reverse

/-- What the handler renders for one press of the Convert button. -/
inductive ConvertOutcome where
  | validationWarning
  | success (data : List Nat)
  | exceptionShown (err : String)
deriving DecidableEq

/-- The constructor class of an outcome, ignoring any message payload —
the "error kind" the UI could dispatch on. -/
inductive OutcomeKind where
  | warningKind
  | successKind
  | exceptionKind
deriving DecidableEq

/-- Maps an outcome to its kind, forgetting data and message strings. -/
def outcomeKind : ConvertOutcome → OutcomeKind
  | .validationWarning => .warningKind
  | .success _ => .successKind
  | .exceptionShown _ => .exceptionKind

/-- The `if convert:` handler of src/app.py lines 162-184: a blank
(whitespace-only) text yields `st.error` and no synthesis; otherwise
`synthesize_to_file` runs inside one `try`, success renders the audio, and
any exception lands in the single generic `except Exception` clause
(`st.exception(e)`). The second component is the backend-call log. -/
def convertHandler (backend : Backend) (removeOk : Bool) (tmpName : String)
    (fs : FS) (text voice : String) (ratePct volumeDb : Int) :
    ConvertOutcome × List SynthCall :=
  if (pyStrip text.toList).isEmpty then (.validationWarning, [])
  else
    match synthesize_to_file backend removeOk tmpName fs text voice
        (rate_str ratePct) (volume_str volumeDb) none with
    | (.error e, log) => (.exceptionShown e, log)
    | (.ok (data, _), log) => (.success data, log)

theorem synthesize_to_file_log (backend : Backend) (removeOk : Bool)
    (tmpName : String) (fs : FS) (text voice rate volume : String)
    (output_path : Option String) :
    (synthesize_to_file backend removeOk tmpName fs text voice rate volume
        output_path).2 = [⟨buildSSML text rate volume, voice⟩] := by
  rcases h : backend (buildSSML text rate volume) voice with e | b
  · simp [synthesize_to_file, synthesize_to_file_async, h]
  · rw [synthesize_to_file_ok backend removeOk tmpName fs text voice rate volume
      output_path b h]

/-- **C3.** Blank or whitespace-only text submitted to the convert action
yields the validation warning and an empty backend-call log (zero
synthesis calls); non-blank text leads to exactly one synthesis call. -/
theorem blank_text_no_synthesis (backend : Backend) (removeOk : Bool)
    (tmpName : String) (fs : FS) (text voice : String) (ratePct volumeDb : Int) :
    ((pyStrip text.toList).isEmpty = true →
      convertHandler backend removeOk tmpName fs text voice ratePct volumeDb
        = (.validationWarning, [])) ∧
    ((pyStrip text.toList).isEmpty = false →
      (convertHandler backend removeOk tmpName fs text voice ratePct
        volumeDb).2.length = 1) := by
  constructor
  · intro h
    unfold convertHandler
    rw [if_pos h]
  · intro h
    have hlog := synthesize_to_file_log backend removeOk tmpName fs text voice
      (rate_str ratePct) (volume_str volumeDb) none
    unfold convertHandler
    rw [if_neg (by rw [h]; decide)]
    rcases hs : synthesize_to_file backend removeOk tmpName fs text voice
        (rate_str ratePct) (volume_str volumeDb) none with ⟨res, log⟩
    rw [hs] at hlog
    rcases res with e | ⟨data, fs2⟩ <;> simp_all

/-- Witness for C3: whitespace-only `"   "` gives the warning and an empty
log; `"hi"` gives exactly one backend call. -/
theorem blank_text_no_synthesis_witness :
    convertHandler constOkBackend true "tmp.mp3" [] "   " "v" 0 0
        = (.validationWarning, []) ∧
    (convertHandler constOkBackend true "tmp.mp3" [] "hi" "v" 0 0).2.length = 1 :=
  ⟨(blank_text_no_synthesis constOkBackend true "tmp.mp3" [] "   " "v" 0 0).1
      (by decide),
   (blank_text_no_synthesis constOkBackend true "tmp.mp3" [] "hi" "v" 0 0).2
      (by decide)⟩

/-- A backend failing the way an unreachable speech endpoint does. -/
def connFailBackend : Backend := fun _ _ =>
  .error "Cannot connect to host speech.platform.bing.com"

/-- A backend failing with an unrelated, generic synthesis error. -/
def genericFailBackend : Backend := fun _ _ => .error "Invalid SSML payload"

/-- **C7 counterexample.** A connectivity-style failure and a generic
failure both land in the handler's single `except Exception` clause: the
two outcomes have the *same* kind (`exceptionKind`) and differ only in
their message strings — so the user-facing message is not distinguishable
by error kind, contrary to the claim. -/
theorem conn_error_same_kind_counterexample :
    outcomeKind (convertHandler connFailBackend true "tmp.mp3" []
        "Hello world" "en-US-JennyNeural" 0 0).1
      = outcomeKind (convertHandler genericFailBackend true "tmp.mp3" []
        "Hello world" "en-US-JennyNeural" 0 0).1 ∧
    outcomeKind (convertHandler connFailBackend true "tmp.mp3" []
        "Hello world" "en-US-JennyNeural" 0 0).1 = .exceptionKind ∧
    (convertHandler connFailBackend true "tmp.mp3" []
        "Hello world" "en-US-JennyNeural" 0 0).1
      ≠ (convertHandler genericFailBackend true "tmp.mp3" []
        "Hello world" "en-US-JennyNeural" 0 0).1 := by
  refine ⟨by rfl, by rfl, by decide⟩

/-- **C7 (amended).** Every synthesis failure — a connectivity failure
included — reaches the user through the one generic exception path: for
non-blank text and a backend that fails with message `e`, the handler's
outcome is `exceptionShown e`, the same kind for every failure; only the
message string differs. -/
theorem all_failures_same_generic_path (backend : Backend) (removeOk : Bool)
    (tmpName : String) (fs : FS) (text voice : String) (ratePct volumeDb : Int)
    (e : String) (hb : ∀ p vo, backend p vo = .error e)
    (ht : (pyStrip text.toList).isEmpty = false) :
    (convertHandler backend removeOk tmpName fs text voice ratePct
        volumeDb).1 = .exceptionShown e ∧
    outcomeKind (convertHandler backend removeOk tmpName fs text voice ratePct
        volumeDb).1 = .exceptionKind := by
  have h1 : (convertHandler backend removeOk tmpName fs text voice ratePct
      volumeDb).1 = .exceptionShown e := by
    unfold convertHandler
    rw [if_neg (by rw [ht]; decide)]
    have hs : synthesize_to_file backend removeOk tmpName fs text voice
        (rate_str ratePct) (volume_str volumeDb) none
        = (.error e, [⟨buildSSML text (rate_str ratePct) (volume_str volumeDb),
            voice⟩]) := by
      simp [synthesize_to_file, synthesize_to_file_async, hb]
    rw [hs]
  exact ⟨h1, by rw [h1]; rfl⟩

/-- Witness for the amended C7 with the concrete connectivity-failure
backend. -/
theorem all_failures_same_generic_path_witness :
    (convertHandler connFailBackend true "tmp.mp3" [] "Hi" "v" 0 0).1
        = .exceptionShown "Cannot connect to host speech.platform.bing.com" ∧
    outcomeKind (convertHandler connFailBackend true "tmp.mp3" [] "Hi" "v"
        0 0).1 = .exceptionKind :=
  all_failures_same_generic_path connFailBackend true "tmp.mp3" [] "Hi" "v" 0 0
    "Cannot connect to host speech.platform.bing.com" (fun _ _ => rfl)
    (by decide)

end TTSApp
